import Mathlib

/-!
Verification development for the AI-powered project-defence coach.

The definitions below are a shallow embedding of the TypeScript source:

* `src/lib/actions/general.action.ts` — session / feedback persistence
  (`createDefenseSession`, `createFeedback`, `updateDefenseSession`, deletes);
* `src/lib/question-generator.ts` — `generateQuestionsFromDocument` and
  `getFallbackQuestions`;
* `src/components/Agent.tsx` — the phase controller (`onCallEnd`, `onError`,
  `handleCall`, `handleGenerateFeedback`);
* `src/components/DefenseSessions.tsx` — `handleDeleteSession`;
* the client-side document processor — `processDocument`.

External services (Firestore, the Gemini evaluator, the VAPI voice transport,
the PDF/DOCX/PPTX extraction libraries) are modelled as explicit inputs:
the evaluator's reply is an `Except`/structured-object argument, persistence
and navigation are recorded as emitted actions, and JavaScript truthiness of
optional values is modelled explicitly on `Option`/`String`/`Int`.
-/

namespace DefenseCoach

/-- JS `a || b` for strings: the empty string is falsy. -/
def jsOrStr (a b : String) : String := if a = "" then b else a

/-- JS `a || b` where `a` is a possibly-undefined string (`none` = `undefined`). -/
def jsOrOptStr (a : Option String) (b : String) : String :=
  match a with
  | some s => jsOrStr s b
  | none => b

/-- JS `a || b` for numbers: `0` is falsy. -/
def jsOrInt (a b : Int) : Int := if a = 0 then b else a

/-- JS truthiness of a possibly-undefined string. -/
def optStrTruthy : Option String → Bool
  | some s => s != ""
  | none => false

/-- JS string interpolation of a possibly-undefined value: `undefined`
renders as the literal text `"undefined"`. -/
def jsInterp : Option String → String
  | some s => s
  | none => "undefined"

/-- `array.join(", ")`. -/
def joinComma (l : List String) : String := String.intercalate ", " l

/-- JS `text.split("\n")` on the character list: split at every newline,
keeping empty pieces. -/
def splitLines : List Char → List (List Char)
  | [] => [[]]
  | c :: rest =>
      match splitLines rest with
      | [] => [[]]
      | l :: ls => if c = '\n' then [] :: l :: ls else (c :: l) :: ls

/-- JS `String.prototype.trim()`: drop whitespace from both ends. -/
def trimChars (cs : List Char) : List Char :=
  ((cs.dropWhile Char.isWhitespace).reverse.dropWhile Char.isWhitespace).reverse

/-- JS `q.endsWith("?")`. -/
def endsWithQM (cs : List Char) : Bool :=
  match cs.getLast? with
  | some c => c = '?'
  | none => false

/-- Prefix test on character lists. -/
def isPrefixOfChars : List Char → List Char → Bool
  | [], _ => true
  | _ :: _, [] => false
  | a :: as, b :: bs => a = b && isPrefixOfChars as bs

/-- Substring occurrence test on character lists. -/
def containsSub (needle : List Char) : List Char → Bool
  | [] => needle.isEmpty
  | c :: rest => isPrefixOfChars needle (c :: rest) || containsSub needle rest

/-- JS `s.includes(sub)`. -/
def strIncludes (s sub : String) : Bool := containsSub sub.data s.data

/-! ## Feedback records (`createFeedback`, `src/lib/actions/general.action.ts`) -/

/-- One named category score of a feedback record. -/
structure CategoryScore where
  name : String
  score : Int
  comment : String
deriving DecidableEq, Repr

/-- A persisted Feedback document (fields written by `createFeedback`). -/
structure Feedback where
  interviewId : String
  userId : String
  totalScore : Int
  categoryScores : List CategoryScore
  strengths : List String
  areasForImprovement : List String
  finalAssessment : String
  documentGaps : List String
  implementationSuggestions : List String
  createdAt : String
deriving DecidableEq, Repr

/-- The five fixed category names demanded by `defenseSchema`
(`src/constants/index.ts`, lines 197–231). -/
def defenseCategoryNames : List String :=
  ["Technical Accuracy", "Documentation Alignment", "Response Structure",
   "Critical Thinking", "Time Management"]

/-- The structured object returned by the evaluator call in `createFeedback`
(already parsed against `defenseSchema` by `generateObject`). -/
structure DefenseObject where
  totalScore : Int
  categoryScores : List CategoryScore
  strengths : List String
  areasForImprovement : List String
  finalAssessment : String
  documentGaps : List String
  implementationSuggestions : List String
deriving DecidableEq, Repr

/-- `defenseSchema` validity: the zod schema is a tuple of five literal-named
category objects, so a validated object carries exactly the five fixed names
in order. -/
def defenseSchemaValid (o : DefenseObject) : Prop :=
  o.categoryScores.map CategoryScore.name = defenseCategoryNames

instance (o : DefenseObject) : Decidable (defenseSchemaValid o) := by
  unfold defenseSchemaValid; infer_instance

/-- The category scores hard-coded on the no-credential path of
`createFeedback` (`general.action.ts`, lines 89–107). -/
def simpleFeedbackCategoryScores : List CategoryScore :=
  [{ name := "Technical Understanding", score := 75,
     comment := "The candidate demonstrated basic understanding of the technical concepts." },
   { name := "Project Implementation", score := 70,
     comment := "The implementation aspects were adequately covered." },
   { name := "Response Quality", score := 80,
     comment := "Responses were generally clear and addressed the questions." }]

/-- The simplified feedback object persisted when no
`GOOGLE_GENERATIVE_AI_API_KEY` is configured (`general.action.ts` 85–123). -/
def simpleFeedback (interviewId userId now : String) : Feedback :=
  { interviewId := interviewId
    userId := userId
    totalScore := 75
    categoryScores := simpleFeedbackCategoryScores
    strengths :=
      ["Able to explain the project fundamentals",
       "Shows enthusiasm for the subject matter",
       "Provided concrete examples when asked"]
    areasForImprovement :=
      ["Could improve on technical depth in responses",
       "Consider providing more implementation details",
       "Practice explaining complex concepts more clearly"]
    finalAssessment :=
      "The defense demonstration showed competency in the subject matter with room for improvement in technical depth. Continue developing expertise in implementation details and critical analysis."
    documentGaps := []
    implementationSuggestions := []
    createdAt := now }

/-- The feedback object persisted on the evaluator-success path
(`general.action.ts` 194–206): fields are defaulted through JS `||`. -/
def successFeedback (interviewId userId : String) (o : DefenseObject)
    (now : String) : Feedback :=
  { interviewId := interviewId
    userId := userId
    totalScore := jsOrInt o.totalScore 75
    categoryScores := o.categoryScores
    strengths := o.strengths
    areasForImprovement := o.areasForImprovement
    finalAssessment := jsOrStr o.finalAssessment "The defense was completed successfully."
    documentGaps := o.documentGaps
    implementationSuggestions := o.implementationSuggestions
    createdAt := now }

/-- The Feedback record `createFeedback` persists, as a function of whether
an evaluator credential is configured and of the evaluator's structured
reply `o` (only consulted on the credentialed path). -/
def createFeedbackRecord (hasApiKey : Bool) (interviewId userId : String)
    (o : DefenseObject) (now : String) : Feedback :=
  if hasApiKey then successFeedback interviewId userId o now
  else simpleFeedback interviewId userId now

/-! ## Question generator (`src/lib/question-generator.ts`) -/

/-- Parse the evaluator's raw reply into question lines
(`generateQuestionsFromDocument`, lines 89–92): split on newlines, trim,
keep non-empty lines that end in a question mark. -/
def parseQuestions (questionsText : String) : List String :=
  ((splitLines questionsText.data).map (fun l => String.mk (trimChars l))).filter
    (fun q => decide (0 < q.length) && endsWithQM q.data)

/-- `getFallbackQuestions` (`question-generator.ts`, lines 131–149): the
fixed deterministic 10-item fallback list. -/
def getFallbackQuestions (academicLevel projectTitle technologies : String) :
    List String :=
  ["Explain the overall architecture of your " ++ projectTitle ++ " project.",
   "What were the main technical challenges you faced while working with " ++
     technologies ++ "?",
   "How did you ensure the quality and reliability of your implementation?",
   "Describe your methodology and research approach in detail.",
   "How does your project compare to existing solutions in this domain?",
   "What are the limitations of your current implementation?",
   "How would you scale your solution for larger datasets or user bases?",
   "What ethical considerations did you address in your project?",
   "If you had more time and resources, what would you improve in your project?",
   "How did you balance theoretical concepts and practical implementation in your " ++
     academicLevel ++ "-level project?"]

/-- `techString` (`question-generator.ts`, lines 50–51). -/
def techString (technologies : List String) : String :=
  if 0 < technologies.length then joinComma technologies else "Not specified"

/-- `generateQuestionsFromDocument`: `hasKey` models the presence of
`NEXT_PUBLIC_GOOGLE_GENERATIVE_AI_API_KEY`, `evaluator` the outcome of the
`generateText` call (`.error` = thrown API error).  `questionCount` only
shapes the prompt text in the source; it does not affect how the reply is
parsed or truncated, so it is unused here as it is there. -/
def generateQuestionsFromDocument (hasKey : Bool)
    (evaluator : Except String String)
    (academicLevel projectTitle : String) (technologies : List String)
    (_questionCount : Nat) : List String :=
  if !hasKey then
    getFallbackQuestions academicLevel projectTitle (joinComma technologies)
  else
    match evaluator with
    | .error _ =>
        getFallbackQuestions academicLevel projectTitle (techString technologies)
    | .ok text =>
        let questionsList := parseQuestions text
        if questionsList.length < 5 then
          getFallbackQuestions academicLevel projectTitle (techString technologies)
        else
          questionsList

/-! ## Session records (`src/lib/actions/general.action.ts`) -/

/-- A stored defense-session document (Firestore `interviews` collection). -/
structure Session where
  userId : String
  role : String
  typ : String
  techstack : List String
  level : String
  focusRatio : String
  questions : List String
  finalized : Bool
  status : Option String
  createdAt : String
  updatedAt : Option String
deriving DecidableEq, Repr

/-- The partial update payload handed to `updateDefenseSession`:
`none` models a field that is `undefined` (absent). -/
structure UpdateData where
  role : Option String := none
  typ : Option String := none
  techstack : Option (List String) := none
  level : Option String := none
  focusRatio : Option String := none
  questions : Option (List String) := none
  status : Option String := none
  finalized : Option Bool := none
  updatedAt : Option String := none
deriving DecidableEq, Repr

/-- Whether at least one field of the update payload is defined — the
source's `Object.keys(sanitizedData).length > 0` test. -/
def UpdateData.anyDefined (d : UpdateData) : Bool :=
  d.role.isSome || d.typ.isSome || d.techstack.isSome || d.level.isSome ||
  d.focusRatio.isSome || d.questions.isSome || d.status.isSome ||
  d.finalized.isSome || d.updatedAt.isSome

/-- Effect of the first Firestore `update` in `updateDefenseSession`
(lines 336–339): spread the sanitized (defined-only) fields, then stamp
`updatedAt` with the server's current time (the spread puts the stamp last,
so it wins over any caller-supplied `updatedAt`). -/
def applyDefined (s : Session) (d : UpdateData) (now : String) : Session :=
  { s with
    role := d.role.getD s.role
    typ := d.typ.getD s.typ
    techstack := d.techstack.getD s.techstack
    level := d.level.getD s.level
    focusRatio := d.focusRatio.getD s.focusRatio
    questions := d.questions.getD s.questions
    status := if d.status.isSome then d.status else s.status
    finalized := d.finalized.getD s.finalized
    updatedAt := some now }

/-- The 10-question template regenerated by `updateDefenseSession`
(lines 357–368) when a new `role` arrives without explicit questions. -/
def updateTemplateQuestions (role techstackStr focusStr : String) : List String :=
  ["Explain the overall architecture of your " ++ role ++ " project",
   "What were the main technical challenges you faced while implementing " ++
     techstackStr ++ "?",
   "How did you ensure the quality and reliability of your implementation?",
   "Describe your methodology and research approach",
   "How does your project compare to existing solutions in this domain?",
   "What are the limitations of your current implementation?",
   "How would you scale your solution for larger datasets or user bases?",
   "What ethical considerations did you address in your project?",
   "If you had more time, what would you improve in your project?",
   "How did you balance the " ++ focusStr ++ " in your project development?"]

/-- `techstackStr` inside `updateDefenseSession` (lines 345–351):
`data.techstack || existingData.techstack || []` (arrays are always truthy
in JS, so a defined — even empty — `data.techstack` wins), joined with
`", "` when non-empty, else the `"your technologies"` placeholder.
`existingData` is the snapshot read *before* the first update, i.e. the
old session `s`. -/
def updateTechstackStr (s : Session) (d : UpdateData) : String :=
  let ts := d.techstack.getD s.techstack
  if 0 < ts.length then joinComma ts else "your technologies"

/-- `focusStr` inside `updateDefenseSession` (lines 353–354):
`data.focusRatio || existingData.focusRatio || "theory/practice balance"`
with JS string truthiness. -/
def updateFocusStr (s : Session) (d : UpdateData) : String :=
  jsOrOptStr d.focusRatio (jsOrStr s.focusRatio "theory/practice balance")

/-- `updateDefenseSession` (lines 308–378) as a function on the stored
session: the sanitized partial update is applied (with an `updatedAt` stamp)
only when at least one field is defined; then, when `data.role` is truthy
and `data.questions` is undefined, a second update overwrites `questions`
with the regenerated template. -/
def updateDefenseSession (s : Session) (d : UpdateData) (now : String) : Session :=
  let s1 := if d.anyDefined then applyDefined s d now else s
  if optStrTruthy d.role && d.questions.isNone then
    { s1 with
      questions :=
        updateTemplateQuestions (jsInterp d.role) (updateTechstackStr s d)
          (updateFocusStr s d) }
  else s1

/-- Parameters of `createDefenseSession` (lines 9–11); every field except
`userId` is optional in `CreateDefenseSessionParams`. -/
structure CreateSessionParams where
  userId : String
  role : Option String := none
  typ : Option String := none
  techstack : Option (List String) := none
  level : Option String := none
  focusRatio : Option String := none
deriving DecidableEq, Repr

/-- The question template built by `createDefenseSession` (lines 21–36)
from the *raw* parameters (before the `||` defaults are applied): an
undefined `role` or `focusRatio` is interpolated as `"undefined"`. -/
def createTemplateQuestions (p : CreateSessionParams) : List String :=
  ["Explain the overall architecture of your " ++ jsInterp p.role ++ " project",
   "What were the main technical challenges you faced while implementing " ++
     (match p.techstack with
      | some ts => if 0 < ts.length then joinComma ts else "your technology stack"
      | none => "your technology stack") ++ "?",
   "How did you ensure the quality and reliability of your implementation?",
   "Describe your methodology and research approach",
   "How does your project compare to existing solutions in this domain?",
   "What are the limitations of your current implementation?",
   "How would you scale your solution for larger datasets or user bases?",
   "What ethical considerations did you address in your project?",
   "If you had more time, what would you improve in your project?",
   "How did you balance the " ++ jsInterp p.focusRatio ++
     " in your project development?"]

/-- `createDefenseSession` (lines 9–60): `none` when the required `userId`
is falsy (the error return), otherwise the session document written to
Firestore — note `finalized := true` with the source comment
"Mark as finalized so it appears in the dashboard". -/
def createDefenseSessionRecord (p : CreateSessionParams) (now : String) :
    Option Session :=
  if p.userId = "" then none
  else
    some
      { userId := p.userId
        role := jsOrOptStr p.role "Project Defense"
        typ := jsOrOptStr p.typ "Defense Session"
        techstack := p.techstack.getD []
        level := jsOrOptStr p.level "To be determined"
        focusRatio := jsOrOptStr p.focusRatio "To be determined"
        questions := createTemplateQuestions p
        finalized := true
        status := none
        createdAt := now
        updatedAt := none }

/-- The structured project-metadata payload received during the preparation
call (`Agent.tsx`, `ProjectInfo`). -/
structure ProjectInfo where
  title : Option String := none
  academicLevel : Option String := none
  technologies : Option (List String) := none
  focusRatio : Option String := none
deriving DecidableEq, Repr

/-- The update payload staged by `onProjectInfoReceived`
(`Agent.tsx`, lines 191–217): truthy fields are staged, `type` is derived
from the academic level, and `updatedAt` / `finalized := true` are always
added. -/
def projectInfoUpdateData (p : ProjectInfo) (now : String) : UpdateData :=
  { role := if optStrTruthy p.title then p.title else none
    level := if optStrTruthy p.academicLevel then p.academicLevel else none
    typ :=
      match p.academicLevel with
      | some l => if l != "" then some (l ++ " Defense") else none
      | none => none
    techstack := p.technologies
    focusRatio := if optStrTruthy p.focusRatio then p.focusRatio else none
    updatedAt := some now
    finalized := some true }

/-! ## Phase controller (`src/components/Agent.tsx`)

The `Agent` component's event handlers are embedded as pure functions from a
controller state to a new state plus a trace of emitted effects.  Persistence
writes, toasts, navigation, timer scheduling and `vapi.start` calls are
recorded as `Action`s; UI-only caches (`userSessions`, `extractedQuestions`,
`errorMessage`) that no claim touches are omitted from the state. -/

/-- The session phase dimension of the controller. -/
inductive Phase
  | preparation
  | examination
deriving DecidableEq, Repr

/-- The `CallStatus` enum of `Agent.tsx`. -/
inductive CallStatus
  | INACTIVE
  | CONNECTING
  | ACTIVE
  | FINISHED
  | ERROR
deriving DecidableEq, Repr

/-- One transcript turn held in the controller's `messages` state. -/
structure SavedMessage where
  role : String
  content : String
deriving DecidableEq, Repr

/-- The thunks the controller hands to `setTimeout`. -/
inductive Delayed
  | runHandleCall
  | runGenerateFeedback
deriving DecidableEq, Repr

/-- Externally visible effects emitted by the controller's handlers. -/
inductive Action
  | persistUpdate (sessionId : String) (d : UpdateData)
  | toastSuccess (msg : String)
  | toastError (msg : String)
  | toastInfo (msg : String)
  | toastWarning (msg : String)
  | schedule (delayMs : Nat) (t : Delayed)
  | navigateHome
  | navigateFeedback (sessionId : String)
  | vapiStart (phase : Phase)
  | createFeedbackCall (transcript : List SavedMessage)
deriving DecidableEq, Repr

/-- The mutable state of one `Agent` instance that the claims depend on.
`typ` is the component's `type` prop (constant for the instance's lifetime);
`sessionPhase` starts as `preparation` exactly when `typ = "generate"`. -/
structure AgentState where
  typ : String
  isVapiAvailable : Bool
  sessionPhase : Phase
  readyForFeedback : Bool
  messages : List SavedMessage
  callStatus : CallStatus
  reconnectAttempts : Nat
  isReconnecting : Bool
  isRetryAttempt : Bool
  isTransitioning : Bool
  showForm : Bool
  currentSessionId : String
deriving DecidableEq, Repr

/-- `handleGenerateFeedback` (`Agent.tsx`, lines 147–177): `server` models
the `{success, feedbackId}` result of the `createFeedback` server action
(consulted only when the transcript is long enough to reach the call). -/
def handleGenerateFeedback (currentSessionId : String)
    (messages : List SavedMessage) (server : Bool × Option String) :
    List Action :=
  if messages.length < 3 then
    [Action.toastError "Not enough conversation data to generate feedback",
     Action.navigateHome]
  else
    Action.createFeedbackCall messages ::
      (match server with
       | (true, some _) =>
           [Action.toastSuccess "Feedback generated successfully!",
            Action.navigateFeedback currentSessionId]
       | _ =>
           [Action.toastError "Failed to save feedback. Returning to dashboard.",
            Action.navigateHome])

/-- The system transcript entry appended on the preparation→examination
transition (`Agent.tsx`, lines 300–305). -/
def prepTransitionMessage : SavedMessage :=
  { role := "system"
    content := "Project preparation completed. Now starting the defense examination with the Gemini AI examiner." }

/-- `onCallEnd` (`Agent.tsx`, lines 267–384).  The preparation branch flips
the phase, persists a status update, appends the transition system message
and schedules `handleCall` after the fixed 2000 ms settling delay; the
examination branches either schedule feedback generation (after 1500 ms),
give the "too short" notice, or set the ready-for-feedback marker. -/
def onCallEnd (st : AgentState) (now : String) : AgentState × List Action :=
  let st0 := { st with
    callStatus := CallStatus.FINISHED
    isReconnecting := false
    reconnectAttempts := 0 }
  match st.sessionPhase with
  | Phase.preparation =>
      ({ st0 with
          sessionPhase := Phase.examination
          messages := st0.messages ++ [prepTransitionMessage]
          isTransitioning := true },
       [Action.toastSuccess "Project preparation phase completed!",
        Action.persistUpdate st.currentSessionId
          { status := some "Ready for examination", updatedAt := some now },
        Action.schedule 2000 Delayed.runHandleCall])
  | Phase.examination =>
      if st.readyForFeedback then
        if 3 ≤ st.messages.length ∧ st.currentSessionId ≠ "" then
          (st0, [Action.schedule 1500 Delayed.runGenerateFeedback])
        else
          (st0,
           [Action.toastWarning "The session was too short to generate meaningful feedback",
            Action.navigateHome])
      else
        ({ st0 with readyForFeedback := true },
         [Action.toastInfo "Defense examination session ended",
          Action.navigateHome])

/-- The system message appended before starting an examination call
(`Agent.tsx`, lines 933–941). -/
def examStartMessage : SavedMessage :=
  { role := "system"
    content := "Starting your project defense examination. The AI examiner will ask you questions about your project based on the information provided. Please answer verbally when prompted." }

/-- `handleCall` (`Agent.tsx`, lines 793–1008).  With `type === "generate"`
it only re-opens the setup form (`setShowForm(true)`) — no voice call is
started.  Otherwise it resets the reconnect counter, marks the retry flag,
optionally appends the examiner-info system message, and starts the voice
call for the current phase.  (The session-refetch that merely refreshes UI
caches, and the question formatting passed into the call's variable values,
are elided: they produce no persisted effect a claim mentions.) -/
def handleCall (st : AgentState) : AgentState × List Action :=
  if st.typ = "generate" then
    ({ st with showForm := true }, [])
  else if !st.isVapiAvailable then
    ({ st with callStatus := CallStatus.ERROR },
     [Action.toastError "Cannot start session: Voice AI service is not available"])
  else
    let msgs :=
      if st.sessionPhase = Phase.examination then st.messages ++ [examStartMessage]
      else st.messages
    ({ st with
        callStatus := CallStatus.CONNECTING
        isRetryAttempt := true
        reconnectAttempts := 0
        messages := msgs
        isTransitioning := false },
     [Action.vapiStart st.sessionPhase])

/-- Normalization of an empty error payload
(`Agent.tsx`, lines 422–423). -/
def normalizeError (error : String) : String :=
  if error = "" then "Unknown connection error" else error

/-- Error classification `isConnectionError` (`Agent.tsx`, lines 428–434),
applied to the normalized message. -/
def isConnectionError (msg : String) : Bool :=
  strIncludes msg "connection" || strIncludes msg "ended" ||
  strIncludes msg "transport" || strIncludes msg "network" ||
  strIncludes msg "Meeting has ended" || msg == "Unknown connection error"

/-- Error classification `isAPIKeyError` (`Agent.tsx`, lines 436–439). -/
def isAPIKeyError (msg : String) : Bool :=
  strIncludes msg "API key" || strIncludes msg "authentication" ||
  strIncludes msg "GOOGLE_GENERATIVE_AI_API_KEY"

/-- The phase-dependent toast shown before the retry logic
(`Agent.tsx`, lines 441–463). -/
def onErrorToast (st : AgentState) (msg : String) : Action :=
  if isConnectionError msg then
    if st.sessionPhase = Phase.preparation ∧ ¬st.isTransitioning then
      Action.toastError "Preparation session disconnected. Please try again."
    else if st.sessionPhase = Phase.examination ∧ ¬st.isRetryAttempt then
      Action.toastError "Defense session disconnected. Attempting to reconnect..."
    else
      Action.toastError ("Connection error: " ++ msg ++ ". Attempting to reconnect...")
  else
    Action.toastError ("Defense session error: " ++ msg)

/-- `onError` (`Agent.tsx`, lines 419–507).  An empty error message is
normalized to `"Unknown connection error"`.  API-key errors navigate away
with no retry.  Connectivity errors reconnect (5000 ms delay) while the
counter is below `maxReconnectAttempts = 3`, else navigate away with a
warning and no feedback.  Other errors fall through to feedback generation
when the examination transcript qualifies.  `server` models the
`createFeedback` result consulted on that last path. -/
def onError (st : AgentState) (error : String) (server : Bool × Option String) :
    AgentState × List Action :=
  let msg := normalizeError error
  let st0 := { st with callStatus := CallStatus.ERROR }
  if isAPIKeyError msg then
    (st0,
     [Action.toastError
        "API Key Error: The Google API key is missing or invalid. Please contact support.",
      Action.navigateHome])
  else
    let pre := onErrorToast st msg
    if isConnectionError msg then
      if st.reconnectAttempts < 3 then
        ({ st0 with
            isReconnecting := true
            reconnectAttempts := st.reconnectAttempts + 1
            isRetryAttempt := true },
         [pre,
          Action.toastInfo "Attempting to reconnect...",
          Action.schedule 5000 Delayed.runHandleCall])
      else
        (st0,
         [pre,
          Action.toastWarning "Maximum reconnection attempts reached",
          Action.toastInfo "Please try again later when connection is more stable",
          Action.navigateHome])
    else
      if st.sessionPhase = Phase.examination ∧ st.readyForFeedback = true ∧
          3 ≤ st.messages.length ∧ st.currentSessionId ≠ "" then
        (st0, pre :: handleGenerateFeedback st.currentSessionId st.messages server)
      else
        (st0,
         [pre,
          Action.toastError "Session error occurred. Please try again later.",
          Action.navigateHome])

/-- Process a run of consecutive error events (no intervening call-start),
collecting the emitted actions. -/
def runErrors (st : AgentState) : List String → AgentState × List Action
  | [] => (st, [])
  | e :: rest =>
      let p := onError st e (false, none)
      let q := runErrors p.1 rest
      (q.1, p.2 ++ q.2)

/-- An error event that `onError` classifies as a connectivity error
(and not as an API-key error, which is checked first). -/
def connectivityEvent (error : String) : Bool :=
  !isAPIKeyError (normalizeError error) && isConnectionError (normalizeError error)

/-- A scheduled automatic reconnection attempt: any timer whose thunk
re-invokes `handleCall`. -/
def isReconnectSchedule : Action → Bool
  | Action.schedule _ Delayed.runHandleCall => true
  | _ => false

/-- Number of scheduled automatic reconnection attempts in a trace. -/
def countReconnects (as : List Action) : Nat :=
  (as.filter isReconnectSchedule).length

/-- The only effects a run of consecutive connectivity errors may emit:
toasts, navigation home, and the 5000 ms reconnect timer.  In particular no
`vapi.start`, no feedback generation, and no other timer. -/
def benignConnAction : Action → Bool
  | Action.toastError _ => true
  | Action.toastInfo _ => true
  | Action.toastWarning _ => true
  | Action.navigateHome => true
  | Action.schedule d t => d == 5000 && t == Delayed.runHandleCall
  | _ => false

/-! ## Session deletion (`src/components/DefenseSessions.tsx`, lines 36–66;
the `InterviewCard` `handleDelete` has the same control flow) -/

/-- Effects of the delete flow. -/
inductive DeleteAction
  | deleteFeedback (id : String)
  | deleteSession (id : String)
  | toastSuccess (msg : String)
  | toastError (msg : String)
  | refresh
deriving DecidableEq, Repr

/-- `handleDeleteSession`: when a feedback id exists, `deleteFeedback` is
attempted first and a failure **throws**, which jumps to the catch block
before `deleteDefenseSession` is ever called.  `fbOk` / `sessOk` model the
`success` flags returned by the two server actions. -/
def handleDeleteSession (sessionId : String) (feedbackId : Option String)
    (fbOk sessOk : Bool) : List DeleteAction :=
  match feedbackId with
  | some fid =>
      if fbOk then
        DeleteAction.deleteFeedback fid ::
          (if sessOk then
            [DeleteAction.deleteSession sessionId,
             DeleteAction.toastSuccess "Session deleted successfully",
             DeleteAction.refresh]
          else
            [DeleteAction.deleteSession sessionId,
             DeleteAction.toastError "Failed to delete session"])
      else
        [DeleteAction.deleteFeedback fid,
         DeleteAction.toastError "Failed to delete session"]
  | none =>
      if sessOk then
        [DeleteAction.deleteSession sessionId,
         DeleteAction.toastSuccess "Session deleted successfully",
         DeleteAction.refresh]
      else
        [DeleteAction.deleteSession sessionId,
         DeleteAction.toastError "Failed to delete session"]

/-! ## Document processor (`processDocument`) -/

/-- `MAX_FILE_SIZE`: 5 MB. -/
def MAX_FILE_SIZE : Nat := 5 * 1024 * 1024

/-- `ALLOWED_FILE_TYPES`. -/
def ALLOWED_FILE_TYPES : List String :=
  ["application/pdf",
   "application/vnd.openxmlformats-officedocument.wordprocessingml.document",
   "application/vnd.openxmlformats-officedocument.presentationml.presentation"]

/-- Drop leading whitespace characters. -/
def dropWhileWs (cs : List Char) : List Char := cs.dropWhile Char.isWhitespace

/-- Collapse internal whitespace runs to single spaces, assuming the leading
whitespace has been dropped; trailing whitespace disappears because a run
followed by nothing produces nothing. -/
def collapseCore : List Char → List Char
  | [] => []
  | c :: rest =>
      if c.isWhitespace then
        if dropWhileWs rest = [] then []
        else ' ' :: collapseCore (dropWhileWs rest)
      else c :: collapseCore rest
termination_by cs => cs.length
decreasing_by
  · exact Nat.lt_succ_of_le (List.dropWhile_suffix Char.isWhitespace).length_le
  · exact Nat.lt_succ_of_le (Nat.le_refl _)

/-- `optimizeText` (`document-processor`): `replace(/\s+/g, " ")` collapses
every whitespace run (newlines included) to a single space — which makes the
subsequent `replace(/\n\s*/g, "\n")` a no-op — and `.trim()` removes the
boundary runs.  Net effect: trim, and collapse interior runs to single
spaces. -/
def optimizeText (s : String) : String :=
  String.mk (collapseCore (dropWhileWs s.data))

/-- JS `text.split(/\s+/)` on the character list: whitespace runs separate
tokens, a leading run contributes a leading empty token.  (A trailing run
would contribute a trailing empty token in JS; the processor only applies
this to already-trimmed text, where no trailing run exists.) -/
def splitWsRuns : List Char → List (List Char)
  | [] => [[]]
  | c :: rest =>
      match splitWsRuns rest with
      | [] => [[]]
      | l :: ls =>
          if c.isWhitespace then
            if l = [] then l :: ls else [] :: l :: ls
          else (c :: l) :: ls

/-- `countWords`: split on whitespace, keep non-empty tokens, count. -/
def countWords (text : String) : Nat :=
  ((splitWsRuns text.data).filter (fun w => w != [])).length

/-- The chunking loop of `splitIntoChunks`: flush the current chunk once it
holds `maxTokens` words. -/
def chunksGo (maxTokens : Nat) : List String → List String → List String
  | [], current =>
      if current = [] then [] else [String.intercalate " " current]
  | w :: ws, current =>
      if maxTokens ≤ current.length then
        String.intercalate " " current :: chunksGo maxTokens ws [w]
      else chunksGo maxTokens ws (current ++ [w])

/-- `splitIntoChunks`. -/
def splitIntoChunks (text : String) (maxTokens : Nat) : List String :=
  chunksGo maxTokens ((splitWsRuns text.data).map String.mk) []

/-- The placeholder substituted when extraction yields no text
(`processDocument`, line 88–91). -/
def noTextPlaceholder (name : String) : String :=
  "[No text could be extracted from " ++ name ++
    ". The file might be scanned or contain only images.]"

/-- The fallback text substituted when extraction throws
(`processDocument`, lines 92–100). -/
def errorPlaceholder (name message : String) : String :=
  "[Error extracting text from " ++ name ++ ": " ++ message ++ "]"

/-- The text entering the optimize step of `processDocument` on the
accepted path: the extractor's output, the "no text" placeholder when that
output is missing or whitespace-only (the JS
`!extractedText || extractedText.trim().length === 0` test), or the error
fallback text when extraction throws. -/
def extractedTextOf (fileName : String) : Except String String → String
  | Except.ok t =>
      if t.data.all Char.isWhitespace then noTextPlaceholder fileName else t
  | Except.error m => errorPlaceholder fileName m

/-- The result record of `processDocument`.  The `hash`/`compressed`
metadata fields (outputs of the external `js-sha256` / `lz-string`
libraries) are not modelled; no property refers to them. -/
structure ProcessedDocument where
  text : String
  filename : String
  fileType : String
  chunks : List String
  wordCount : Nat
  success : Bool
  error : Option String
deriving DecidableEq, Repr

/-- `processDocument`: size and type are validated before extraction; on the
accepted path the (external) extractor's outcome is `extraction`
(`.error` = a thrown extraction error), the JS
`!extractedText || extractedText.trim().length === 0` test is the all-
whitespace test, and the resulting text is optimized before being returned
with `success := true`. -/
def processDocument (size : Nat) (fileType fileName : String)
    (extraction : Except String String) : ProcessedDocument :=
  if MAX_FILE_SIZE < size then
    { text := "", filename := fileName, fileType := fileType, chunks := []
      wordCount := 0, success := false
      error := some "File is too large. Please upload a file less than 5MB." }
  else if !(ALLOWED_FILE_TYPES.contains fileType) then
    { text := "", filename := fileName, fileType := fileType, chunks := []
      wordCount := 0, success := false
      error := some "Unsupported file type. Please upload a PDF, DOCX, or PPTX file." }
  else
    let optimizedText := optimizeText (extractedTextOf fileName extraction)
    { text := optimizedText
      filename := fileName
      fileType := fileType
      chunks := splitIntoChunks optimizedText 1500
      wordCount := countWords optimizedText
      success := true
      error := none }

/-! ## Concrete sample inputs used in counterexamples and witnesses -/

/-- A structured evaluator reply that validates against `defenseSchema`. -/
def sampleDefenseObject : DefenseObject :=
  { totalScore := 82
    categoryScores :=
      [{ name := "Technical Accuracy", score := 85, comment := "solid" },
       { name := "Documentation Alignment", score := 78, comment := "mostly aligned" },
       { name := "Response Structure", score := 80, comment := "clear" },
       { name := "Critical Thinking", score := 84, comment := "good" },
       { name := "Time Management", score := 83, comment := "efficient" }]
    strengths := ["clear architecture account"]
    areasForImprovement := ["deeper evaluation"]
    finalAssessment := "A solid defense."
    documentGaps := []
    implementationSuggestions := [] }

/-- A stored session holding document-derived custom questions. -/
def sampleStoredSession : Session :=
  { userId := "u1"
    role := "Old Title"
    typ := "Defense Session"
    techstack := ["react"]
    level := "Bachelor's"
    focusRatio := "50/50"
    questions := ["What dataset did you use in chapter 3?"]
    finalized := true
    status := none
    createdAt := "2024-01-01T00:00:00.000Z"
    updatedAt := none }

/-- A metadata update that defines only `role`. -/
def roleOnlyUpdate : UpdateData := { role := some "Library System" }

/-- The update payload of the spec's `updatePartial` example. -/
def examplePatch : UpdateData := { techstack := none, level := some "PhD" }

/-- An `Agent` state at the end of a preparation call
(`type = "generate"` is the only configuration in which the phase can be
`preparation`). -/
def prepEndState : AgentState :=
  { typ := "generate"
    isVapiAvailable := true
    sessionPhase := Phase.preparation
    readyForFeedback := false
    messages := [{ role := "assistant", content := "Tell me about your project." }]
    callStatus := CallStatus.ACTIVE
    reconnectAttempts := 0
    isReconnecting := false
    isRetryAttempt := false
    isTransitioning := false
    showForm := false
    currentSessionId := "sess1" }

/-- An `Agent` state in an active examination call with no prior
reconnection attempts. -/
def examActiveState : AgentState :=
  { typ := "interview"
    isVapiAvailable := true
    sessionPhase := Phase.examination
    readyForFeedback := false
    messages := []
    callStatus := CallStatus.ACTIVE
    reconnectAttempts := 0
    isReconnecting := false
    isRetryAttempt := false
    isTransitioning := false
    showForm := false
    currentSessionId := "sess1" }

/-- Four consecutive transport failures. -/
def fourNetworkErrors : List String :=
  ["network lost", "network lost", "network lost", "network lost"]

/-! ## Theorems -/

/-- C1 (counterexample): the claim that every Feedback record persisted by
`createFeedback` carries the five fixed category names fails on the
no-credential simplified path, which persists three categories named
Technical Understanding / Project Implementation / Response Quality. -/
theorem createFeedback_simplified_categories_counterexample :
    (createFeedbackRecord false "sess1" "u1" sampleDefenseObject
        "2024-01-01T00:00:00.000Z").categoryScores.map CategoryScore.name ≠
      defenseCategoryNames ∧
    (createFeedbackRecord false "sess1" "u1" sampleDefenseObject
        "2024-01-01T00:00:00.000Z").categoryScores.length = 3 := by
  exact ⟨by decide, by decide⟩

/-- C1 (amended): on the evaluator-success path a schema-validated result
always yields exactly the five fixed category names in order, while the
no-credential simplified path always yields the three fixed names
Technical Understanding, Project Implementation, Response Quality. -/
theorem createFeedback_category_names (interviewId userId now : String)
    (o : DefenseObject) (h : defenseSchemaValid o) :
    (createFeedbackRecord true interviewId userId o now).categoryScores.map
        CategoryScore.name = defenseCategoryNames ∧
    (createFeedbackRecord false interviewId userId o now).categoryScores.map
        CategoryScore.name =
      ["Technical Understanding", "Project Implementation", "Response Quality"] := by
  refine ⟨?_, rfl⟩
  simpa [createFeedbackRecord, successFeedback] using h

/-- C1 witness: the amended statement at a concrete schema-valid object. -/
theorem createFeedback_category_names_witness :
    defenseSchemaValid sampleDefenseObject ∧
    (createFeedbackRecord true "sess1" "u1" sampleDefenseObject
        "T").categoryScores.map CategoryScore.name = defenseCategoryNames :=
  ⟨by decide,
   (createFeedback_category_names "sess1" "u1" "T" sampleDefenseObject (by decide)).1⟩

/-- C4 (counterexample): with a configured key, a successful evaluator call
whose reply parses to six valid question lines, and a requested count of 10,
`generateQuestionsFromDocument` returns the six parsed lines — not the
requested count. -/
theorem generateQuestions_count_counterexample :
    (generateQuestionsFromDocument true
        (Except.ok "Q1?\nQ2?\nQ3?\nQ4?\nQ5?\nQ6?") "Master's" "Demo" [] 10).length
      = 6 ∧
    (generateQuestionsFromDocument true
        (Except.ok "Q1?\nQ2?\nQ3?\nQ4?\nQ5?\nQ6?") "Master's" "Demo" [] 10).length
      ≠ 10 := by
  exact ⟨by decide, by decide⟩

/-- C4 (amended): when the key is configured, the evaluator call succeeds
and at least 5 valid lines are parsed, `generateQuestionsFromDocument`
returns exactly the parsed lines (each ending in `?`, but their number is
whatever was parsed, not necessarily the requested count); in every other
case — fewer than 5 valid lines, an evaluator error, or a missing key — it
returns the fixed 10-item fallback list parameterized only by academic
level, title, and technology string. -/
theorem generateQuestions_spec (hasKey : Bool) (ev : Except String String)
    (level title : String) (techs : List String) (count : Nat) :
    (hasKey = false →
      generateQuestionsFromDocument hasKey ev level title techs count =
        getFallbackQuestions level title (joinComma techs)) ∧
    (∀ msg, hasKey = true → ev = Except.error msg →
      generateQuestionsFromDocument hasKey ev level title techs count =
        getFallbackQuestions level title (techString techs)) ∧
    (∀ text, hasKey = true → ev = Except.ok text →
      (parseQuestions text).length < 5 →
      generateQuestionsFromDocument hasKey ev level title techs count =
        getFallbackQuestions level title (techString techs)) ∧
    (∀ text, hasKey = true → ev = Except.ok text →
      5 ≤ (parseQuestions text).length →
      generateQuestionsFromDocument hasKey ev level title techs count =
        parseQuestions text ∧
      ∀ q ∈ parseQuestions text, endsWithQM q.data = true) ∧
    (∀ a b c, (getFallbackQuestions a b c).length = 10) := by
  refine ⟨?_, ?_, ?_, ?_, ?_⟩
  · intro hk; subst hk; rfl
  · intro msg hk he; subst hk; subst he; rfl
  · intro text hk he hlt; subst hk; subst he
    simp [generateQuestionsFromDocument, hlt]
  · intro text hk he hge; subst hk; subst he
    constructor
    · simp [generateQuestionsFromDocument, Nat.not_lt.mpr hge]
    · intro q hq
      have := List.mem_filter.mp hq
      exact (Bool.and_eq_true _ _ |>.mp this.2).2
  · intro a b c; rfl

/-- C4 witness: the amended statement at concrete inputs (six parsed lines
for a requested count of 10, and the 10-item fallback shape). -/
theorem generateQuestions_spec_witness :
    generateQuestionsFromDocument true
        (Except.ok "Q1?\nQ2?\nQ3?\nQ4?\nQ5?\nQ6?") "Master's" "Demo" [] 10 =
      parseQuestions "Q1?\nQ2?\nQ3?\nQ4?\nQ5?\nQ6?" ∧
    (getFallbackQuestions "Master's" "Demo" "react").length = 10 := by
  have h := generateQuestions_spec true
    (Except.ok "Q1?\nQ2?\nQ3?\nQ4?\nQ5?\nQ6?") "Master's" "Demo" [] 10
  exact ⟨(h.2.2.2.1 _ rfl rfl (by decide)).1, h.2.2.2.2 _ _ _⟩

/-- C7 (counterexample): deleting a session whose feedback deletion fails
does **not** proceed to delete the session — the thrown error aborts the
flow before `deleteDefenseSession` is called, contradicting the claimed
partial-failure tolerance. -/
theorem handleDeleteSession_feedback_failure_counterexample :
    DeleteAction.deleteSession "sess1" ∉
      handleDeleteSession "sess1" (some "fb1") false true ∧
    DeleteAction.toastError "Failed to delete session" ∈
      handleDeleteSession "sess1" (some "fb1") false true := by
  exact ⟨by decide, by decide⟩

/-- C7 (amended): with an associated feedback id, the delete flow attempts
the feedback deletion first; when it succeeds the session deletion is also
performed, but when it fails the flow aborts with an error notice and the
session record is never deleted. -/
theorem handleDeleteSession_spec (sid fid : String) (sessOk : Bool) :
    DeleteAction.deleteFeedback fid ∈ handleDeleteSession sid (some fid) true sessOk ∧
    DeleteAction.deleteSession sid ∈ handleDeleteSession sid (some fid) true sessOk ∧
    DeleteAction.deleteFeedback fid ∈ handleDeleteSession sid (some fid) false sessOk ∧
    DeleteAction.deleteSession sid ∉ handleDeleteSession sid (some fid) false sessOk ∧
    DeleteAction.toastError "Failed to delete session" ∈
      handleDeleteSession sid (some fid) false sessOk := by
  cases sessOk <;> simp [handleDeleteSession]

/-- C7 witness: the amended delete behaviour at concrete ids. -/
theorem handleDeleteSession_spec_witness :
    DeleteAction.deleteSession "s1" ∈
      handleDeleteSession "s1" (some "f1") true true ∧
    DeleteAction.deleteSession "s1" ∉
      handleDeleteSession "s1" (some "f1") false true :=
  ⟨(handleDeleteSession_spec "s1" "f1" true).2.1,
   (handleDeleteSession_spec "s1" "f1" true).2.2.2.1⟩

/-- C8 (counterexample): `createDefenseSession` writes the new session with
`finalized := true` (source comment: "Mark as finalized so it appears in
the dashboard"), not `false` as claimed. -/
theorem createDefenseSession_finalized_counterexample :
    (createDefenseSessionRecord { userId := "u1" }
        "2024-01-01T00:00:00.000Z").map Session.finalized = some true ∧
    (createDefenseSessionRecord { userId := "u1" }
        "2024-01-01T00:00:00.000Z").map Session.finalized ≠ some false := by
  exact ⟨by decide, by decide⟩

/-- C8 (amended): `createDefenseSession` creates the session with
`finalized := true` and `||`-defaulted placeholder values for the missing
fields, and the metadata update staged by `onProjectInfoReceived` during the
preparation call also stamps `finalized := true` when persisted. -/
theorem createDefenseSession_finalized_spec (p : CreateSessionParams)
    (now : String) (hu : p.userId ≠ "") :
    (createDefenseSessionRecord p now).map Session.finalized = some true ∧
    (createDefenseSessionRecord p now).map Session.role =
      some (jsOrOptStr p.role "Project Defense") ∧
    (createDefenseSessionRecord p now).map Session.level =
      some (jsOrOptStr p.level "To be determined") ∧
    (createDefenseSessionRecord p now).map Session.focusRatio =
      some (jsOrOptStr p.focusRatio "To be determined") ∧
    (∀ (st : Session) (info : ProjectInfo) (t1 t2 : String),
      (updateDefenseSession st (projectInfoUpdateData info t1) t2).finalized
        = true) := by
  refine ⟨?_, ?_, ?_, ?_, ?_⟩
  · simp [createDefenseSessionRecord, hu]
  · simp [createDefenseSessionRecord, hu]
  · simp [createDefenseSessionRecord, hu]
  · simp [createDefenseSessionRecord, hu]
  · intro st info t1 t2
    have hd : (projectInfoUpdateData info t1).anyDefined = true := by
      simp [projectInfoUpdateData, UpdateData.anyDefined]
    simp only [updateDefenseSession, hd, if_true]
    split <;> simp [applyDefined, projectInfoUpdateData]

/-- C8 witness: the amended statement at a concrete creation and a concrete
metadata update. -/
theorem createDefenseSession_finalized_spec_witness :
    (createDefenseSessionRecord { userId := "u1" } "T").map Session.finalized
      = some true ∧
    (updateDefenseSession sampleStoredSession
        (projectInfoUpdateData
          { title := some "Library System", academicLevel := some "Master's" }
          "T1") "T2").finalized = true := by
  have h := createDefenseSession_finalized_spec { userId := "u1" } "T" (by decide)
  exact ⟨h.1, h.2.2.2.2 _ _ _ _⟩

/-- C2 (code bug): on a call-end in the preparation phase the controller
does flip the phase to examination, persist the status update, append the
system transition message, and schedule `handleCall` after the 2000 ms
settling delay — but the scheduled `handleCall` runs with
`type === "generate"` (the only configuration in which the phase can be
`preparation`), so it merely re-opens the setup form and never invokes
`start(examination)`, contradicting the code's own comments
("Automatically starting examination phase"). -/
theorem onCallEnd_preparation_no_autostart :
    ((onCallEnd prepEndState "T").1.sessionPhase = Phase.examination) ∧
    ((onCallEnd prepEndState "T").1.messages =
      prepEndState.messages ++ [prepTransitionMessage]) ∧
    (Action.persistUpdate "sess1"
        { status := some "Ready for examination", updatedAt := some "T" } ∈
      (onCallEnd prepEndState "T").2) ∧
    (Action.schedule 2000 Delayed.runHandleCall ∈ (onCallEnd prepEndState "T").2) ∧
    ((handleCall (onCallEnd prepEndState "T").1).2 = []) ∧
    (∀ p : Phase, Action.vapiStart p ∉ (handleCall (onCallEnd prepEndState "T").1).2) ∧
    ((handleCall (onCallEnd prepEndState "T").1).1.showForm = true) := by
  have h5 : (handleCall (onCallEnd prepEndState "T").1).2 = ([] : List Action) := by
    decide
  refine ⟨by decide, by decide, by decide, by decide, h5, ?_, by decide⟩
  intro p
  rw [h5]
  simp

/-- C5 (confirmed): a transcript with fewer than 3 turns never reaches the
`createFeedback` call — `handleGenerateFeedback` emits the "not enough
conversation data" notice and navigates home without any feedback-creation
effect, and `onCallEnd` in the ready-for-feedback examination branch gives
the "too short" warning and navigates home instead of scheduling feedback
generation. -/
theorem feedback_requires_three_turns (sid : String) (msgs : List SavedMessage)
    (srv : Bool × Option String) (h : msgs.length < 3) :
    (∀ t, Action.createFeedbackCall t ∉ handleGenerateFeedback sid msgs srv) ∧
    Action.navigateHome ∈ handleGenerateFeedback sid msgs srv ∧
    Action.toastError "Not enough conversation data to generate feedback" ∈
      handleGenerateFeedback sid msgs srv ∧
    (∀ (st : AgentState) (now : String),
      st.sessionPhase = Phase.examination → st.readyForFeedback = true →
      st.messages.length < 3 →
      (onCallEnd st now).2 =
        [Action.toastWarning
           "The session was too short to generate meaningful feedback",
         Action.navigateHome]) := by
  have e : handleGenerateFeedback sid msgs srv =
      [Action.toastError "Not enough conversation data to generate feedback",
       Action.navigateHome] := by
    simp [handleGenerateFeedback, h]
  refine ⟨?_, ?_, ?_, ?_⟩
  · intro t; rw [e]; simp
  · rw [e]; simp
  · rw [e]; simp
  · intro st now h1 h2 h3
    have hno : ¬(3 ≤ st.messages.length ∧ st.currentSessionId ≠ "") :=
      fun hcon => (Nat.not_le.mpr h3) hcon.1
    simp [onCallEnd, h1, h2, hno]

/-- C5 witness: the theorem at an empty transcript. -/
theorem feedback_requires_three_turns_witness :
    Action.navigateHome ∈ handleGenerateFeedback "sess1" [] (false, none) :=
  (feedback_requires_three_turns "sess1" [] (false, none) (by decide)).2.1

/-- C6 (counterexample): an update whose only defined field is `role`
(staged whenever project metadata supplies a new title) silently overwrites
the stored `questions` field with the regenerated template — so fields
other than the named defined ones are *not* all left untouched. -/
theorem updateDefenseSession_role_overwrites_questions :
    (updateDefenseSession sampleStoredSession roleOnlyUpdate
        "2024-01-02T00:00:00.000Z").questions ≠ sampleStoredSession.questions ∧
    (updateDefenseSession sampleStoredSession roleOnlyUpdate
        "2024-01-02T00:00:00.000Z").questions =
      updateTemplateQuestions "Library System" "react" "50/50" := by
  exact ⟨by decide, by decide⟩

/-- C6 (amended): `updateDefenseSession` ignores undefined fields and, when
at least one field is defined, applies exactly the defined fields and stamps
`updatedAt`; every other stored field is untouched **except** `questions`,
which is regenerated when a truthy `role` is supplied without `questions`
(excluded here by hypothesis; see the companion regeneration theorem).  The
spec's example — patching `{techstack: undefined, level: "PhD"}` onto a
session with `techstack = ["react"]` — follows by instantiation. -/
theorem updateDefenseSession_frame (s : Session) (d : UpdateData) (now : String)
    (hq : optStrTruthy d.role = false ∨ d.questions.isSome = true)
    (hd : d.anyDefined = true) :
    (updateDefenseSession s d now).userId = s.userId ∧
    (updateDefenseSession s d now).createdAt = s.createdAt ∧
    (updateDefenseSession s d now).role = d.role.getD s.role ∧
    (updateDefenseSession s d now).typ = d.typ.getD s.typ ∧
    (updateDefenseSession s d now).techstack = d.techstack.getD s.techstack ∧
    (updateDefenseSession s d now).level = d.level.getD s.level ∧
    (updateDefenseSession s d now).focusRatio = d.focusRatio.getD s.focusRatio ∧
    (updateDefenseSession s d now).questions = d.questions.getD s.questions ∧
    (updateDefenseSession s d now).finalized = d.finalized.getD s.finalized ∧
    (updateDefenseSession s d now).status =
      (if d.status.isSome then d.status else s.status) ∧
    (updateDefenseSession s d now).updatedAt = some now := by
  have hcond : (optStrTruthy d.role && d.questions.isNone) = false := by
    rcases hq with h | h
    · simp [h]
    · cases hdq : d.questions with
      | none => rw [hdq] at h; simp at h
      | some v => simp [hdq]
  have hres : updateDefenseSession s d now = applyDefined s d now := by
    simp [updateDefenseSession, hcond, hd]
  rw [hres]
  exact ⟨rfl, rfl, rfl, rfl, rfl, rfl, rfl, rfl, rfl, rfl, rfl⟩

/-- C6 witness: the spec's example — only `level` (and `updatedAt`) change,
`techstack` and the other fields keep their stored values. -/
theorem updateDefenseSession_frame_witness :
    (updateDefenseSession sampleStoredSession examplePatch "T").level = "PhD" ∧
    (updateDefenseSession sampleStoredSession examplePatch "T").techstack =
      ["react"] ∧
    (updateDefenseSession sampleStoredSession examplePatch "T").questions =
      sampleStoredSession.questions ∧
    (updateDefenseSession sampleStoredSession examplePatch "T").updatedAt =
      some "T" := by
  have h := updateDefenseSession_frame sampleStoredSession examplePatch "T"
    (Or.inl (by decide)) (by decide)
  exact ⟨h.2.2.2.2.2.1, h.2.2.2.2.1, h.2.2.2.2.2.2.2.1, h.2.2.2.2.2.2.2.2.2.2⟩

/-- C10 (confirmed): whenever the update payload defines a truthy `role`
but no `questions`, the stored questions are overwritten with the fixed
10-item template derived from the new role and the (new or stored)
techstack and focus ratio. -/
theorem updateDefenseSession_role_regenerates (s : Session) (d : UpdateData)
    (now : String) (hrole : optStrTruthy d.role = true)
    (hq : d.questions = none) :
    (updateDefenseSession s d now).questions =
      updateTemplateQuestions (jsInterp d.role) (updateTechstackStr s d)
        (updateFocusStr s d) ∧
    (updateDefenseSession s d now).questions.length = 10 := by
  have hcond : (optStrTruthy d.role && d.questions.isNone) = true := by
    simp [hrole, hq]
  constructor
  · simp [updateDefenseSession, hcond]
  · have h1 : (updateDefenseSession s d now).questions =
        updateTemplateQuestions (jsInterp d.role) (updateTechstackStr s d)
          (updateFocusStr s d) := by
      simp [updateDefenseSession, hcond]
    rw [h1]
    rfl

/-- C10 witness: the regeneration at a concrete session and role-only
update. -/
theorem updateDefenseSession_role_regenerates_witness :
    (updateDefenseSession sampleStoredSession roleOnlyUpdate
        "T").questions.length = 10 :=
  (updateDefenseSession_role_regenerates sampleStoredSession roleOnlyUpdate "T"
    (by decide) rfl).2

/-- The pre-retry toast of `onError` is always some `toastError`. -/
theorem onErrorToast_isToastError (st : AgentState) (msg : String) :
    ∃ m, onErrorToast st msg = Action.toastError m := by
  unfold onErrorToast
  split
  · split
    · exact ⟨_, rfl⟩
    · split
      · exact ⟨_, rfl⟩
      · exact ⟨_, rfl⟩
  · exact ⟨_, rfl⟩

/-- Shape of one `onError` step on a connectivity error: below the cap it
increments the counter and schedules a single 5000 ms reconnect; at the cap
it leaves the counter alone and navigates home without scheduling. -/
theorem onError_conn (st : AgentState) (e : String) (srv : Bool × Option String)
    (hc : connectivityEvent e = true) :
    (st.reconnectAttempts < 3 →
      (onError st e srv).2 =
        [onErrorToast st (normalizeError e),
         Action.toastInfo "Attempting to reconnect...",
         Action.schedule 5000 Delayed.runHandleCall] ∧
      (onError st e srv).1.reconnectAttempts = st.reconnectAttempts + 1) ∧
    (3 ≤ st.reconnectAttempts →
      (onError st e srv).2 =
        [onErrorToast st (normalizeError e),
         Action.toastWarning "Maximum reconnection attempts reached",
         Action.toastInfo "Please try again later when connection is more stable",
         Action.navigateHome] ∧
      (onError st e srv).1.reconnectAttempts = st.reconnectAttempts) := by
  obtain ⟨h1, h2⟩ := Bool.and_eq_true _ _ |>.mp hc
  have h1' : isAPIKeyError (normalizeError e) = false := by
    simpa using h1
  constructor
  · intro hlt
    constructor <;> simp [onError, h1', h2, hlt]
  · intro hge
    have hnlt : ¬ st.reconnectAttempts < 3 := Nat.not_lt.mpr hge
    constructor <;> simp [onError, h1', h2, hnlt]

/-- Invariant of a run of consecutive connectivity errors: the counter
saturates at 3, the number of scheduled reconnects is the counter's total
progress, every emitted effect is benign (a toast, going home, or the
5000 ms reconnect timer), and once a 4th error arrives past a zero start
the trace contains the navigate-home routing. -/
theorem runErrors_conn_invariant : ∀ (errs : List String) (st : AgentState),
    (∀ e ∈ errs, connectivityEvent e = true) →
    st.reconnectAttempts ≤ 3 →
    (runErrors st errs).1.reconnectAttempts =
      min 3 (st.reconnectAttempts + errs.length) ∧
    countReconnects (runErrors st errs).2 =
      min 3 (st.reconnectAttempts + errs.length) - st.reconnectAttempts ∧
    (∀ a ∈ (runErrors st errs).2, benignConnAction a = true) ∧
    (4 ≤ st.reconnectAttempts + errs.length →
      Action.navigateHome ∈ (runErrors st errs).2)
  | [], st, _, h3 => by
      refine ⟨?_, ?_, ?_, ?_⟩
      · show st.reconnectAttempts =
          min 3 (st.reconnectAttempts + ([] : List String).length)
        simp only [List.length_nil, Nat.add_zero]
        omega
      · show countReconnects [] =
          min 3 (st.reconnectAttempts + ([] : List String).length) -
            st.reconnectAttempts
        simp only [countReconnects, List.filter_nil, List.length_nil,
          Nat.add_zero]
        omega
      · intro a ha
        exact absurd ha (List.not_mem_nil a)
      · intro h4
        simp only [List.length_nil, Nat.add_zero] at h4
        omega
  | e :: rest, st, hc, h3 => by
      have hce := hc e (List.mem_cons_self _ _)
      have hcr : ∀ x ∈ rest, connectivityEvent x = true :=
        fun x hx => hc x (List.mem_cons_of_mem _ hx)
      obtain ⟨mt, hmt⟩ := onErrorToast_isToastError st (normalizeError e)
      have hrun : runErrors st (e :: rest) =
          ((runErrors (onError st e (false, none)).1 rest).1,
           (onError st e (false, none)).2 ++
             (runErrors (onError st e (false, none)).1 rest).2) := rfl
      by_cases hlt : st.reconnectAttempts < 3
      · obtain ⟨hact, hatt⟩ := (onError_conn st e (false, none) hce).1 hlt
        have ih := runErrors_conn_invariant rest (onError st e (false, none)).1
          hcr (by omega)
        rw [hatt] at ih
        obtain ⟨iha, ihc, ihb, ihn⟩ := ih
        refine ⟨?_, ?_, ?_, ?_⟩
        · rw [hrun]; rw [iha]; simp [List.length_cons]; omega
        · rw [hrun]
          have hsplit : countReconnects ((onError st e (false, none)).2 ++
              (runErrors (onError st e (false, none)).1 rest).2) =
              countReconnects (onError st e (false, none)).2 +
                countReconnects (runErrors (onError st e (false, none)).1 rest).2 := by
            simp [countReconnects, List.filter_append]
          rw [hsplit, ihc, hact, hmt]
          have hone : countReconnects
              [Action.toastError mt,
               Action.toastInfo "Attempting to reconnect...",
               Action.schedule 5000 Delayed.runHandleCall] = 1 := rfl
          rw [hone]
          simp [List.length_cons]; omega
        · intro a ha
          rw [hrun] at ha
          rcases List.mem_append.mp ha with hl | hr
          · rw [hact, hmt] at hl
            fin_cases hl <;> rfl
          · exact ihb a hr
        · intro h4
          rw [hrun]
          refine List.mem_append.mpr (Or.inr ?_)
          refine ihn ?_
          simp only [List.length_cons] at h4
          omega
      · have hge : 3 ≤ st.reconnectAttempts := Nat.not_lt.mp hlt
        obtain ⟨hact, hatt⟩ := (onError_conn st e (false, none) hce).2 hge
        have ih := runErrors_conn_invariant rest (onError st e (false, none)).1
          hcr (by omega)
        rw [hatt] at ih
        obtain ⟨iha, ihc, ihb, ihn⟩ := ih
        have ha3 : st.reconnectAttempts = 3 := by omega
        refine ⟨?_, ?_, ?_, ?_⟩
        · rw [hrun]; rw [iha]; simp [List.length_cons]; omega
        · rw [hrun]
          have hsplit : countReconnects ((onError st e (false, none)).2 ++
              (runErrors (onError st e (false, none)).1 rest).2) =
              countReconnects (onError st e (false, none)).2 +
                countReconnects (runErrors (onError st e (false, none)).1 rest).2 := by
            simp [countReconnects, List.filter_append]
          rw [hsplit, ihc, hact, hmt]
          have hzero : countReconnects
              [Action.toastError mt,
               Action.toastWarning "Maximum reconnection attempts reached",
               Action.toastInfo "Please try again later when connection is more stable",
               Action.navigateHome] = 0 := rfl
          rw [hzero]
          simp [List.length_cons]; omega
        · intro a ha
          rw [hrun] at ha
          rcases List.mem_append.mp ha with hl | hr
          · rw [hact, hmt] at hl
            fin_cases hl <;> rfl
          · exact ihb a hr
        · intro _
          rw [hrun]
          refine List.mem_append.mpr (Or.inl ?_)
          rw [hact]
          simp

/-- C3 (confirmed): over any run of consecutive connectivity errors the
controller schedules at most 3 automatic reconnection attempts, every
scheduled reconnect uses the fixed 5000 ms delay, the run never invokes
`start` directly and never triggers feedback generation, and once a 4th
consecutive connectivity error arrives the trace routes to navigate-away. -/
theorem phaseController_reconnect_bound (st : AgentState) (errs : List String)
    (h0 : st.reconnectAttempts = 0)
    (hc : ∀ e ∈ errs, connectivityEvent e = true) :
    countReconnects (runErrors st errs).2 ≤ 3 ∧
    (∀ a ∈ (runErrors st errs).2, ∀ d t, a = Action.schedule d t →
      d = 5000 ∧ t = Delayed.runHandleCall) ∧
    (∀ tr, Action.createFeedbackCall tr ∉ (runErrors st errs).2) ∧
    (∀ p, Action.vapiStart p ∉ (runErrors st errs).2) ∧
    (4 ≤ errs.length → Action.navigateHome ∈ (runErrors st errs).2) := by
  obtain ⟨ha, hcnt, hben, hnav⟩ :=
    runErrors_conn_invariant errs st hc (by omega)
  refine ⟨?_, ?_, ?_, ?_, ?_⟩
  · rw [hcnt, h0]; omega
  · intro a hmem d t hat
    have hb := hben a hmem
    rw [hat] at hb
    simpa [benignConnAction] using hb
  · intro tr hmem
    have hb := hben _ hmem
    simp [benignConnAction] at hb
  · intro p hmem
    have hb := hben _ hmem
    simp [benignConnAction] at hb
  · intro h4
    exact hnav (by omega)

/-- C3 witness: four consecutive network errors from a fresh examination
state — at most three reconnect schedules and a navigate-home routing. -/
theorem phaseController_reconnect_bound_witness :
    countReconnects (runErrors examActiveState fourNetworkErrors).2 ≤ 3 ∧
    Action.navigateHome ∈ (runErrors examActiveState fourNetworkErrors).2 := by
  have h := phaseController_reconnect_bound examActiveState fourNetworkErrors
    rfl (by decide)
  exact ⟨h.1, h.2.2.2.2 (by decide)⟩

/-- Collapsing a list that starts with a non-whitespace character keeps
that character: the result is non-empty. -/
theorem collapseCore_cons_ne (c : Char) (rest : List Char)
    (h : c.isWhitespace = false) : collapseCore (c :: rest) ≠ [] := by
  simp [collapseCore, h]

/-- Dropping leading whitespace from a list containing a non-whitespace
character exposes a non-whitespace head. -/
theorem dropWhileWs_exists : ∀ (cs : List Char),
    (∃ c ∈ cs, c.isWhitespace = false) →
    ∃ d ds, dropWhileWs cs = d :: ds ∧ d.isWhitespace = false
  | [], h => by
      obtain ⟨c, hc, _⟩ := h
      exact absurd hc (List.not_mem_nil c)
  | a :: as, h => by
      by_cases hw : a.isWhitespace
      · have hstep : dropWhileWs (a :: as) = dropWhileWs as := by
          simp [dropWhileWs, List.dropWhile_cons, hw]
        obtain ⟨c, hc, hcw⟩ := h
        rcases List.mem_cons.mp hc with hca | hcas
        · rw [hca] at hcw; rw [hcw] at hw; exact absurd hw (by simp)
        · rw [hstep]
          exact dropWhileWs_exists as ⟨c, hcas, hcw⟩
      · refine ⟨a, as, ?_, by simpa using hw⟩
        simp [dropWhileWs, List.dropWhile_cons, hw]

/-- `optimizeText` of a string containing a non-whitespace character is
never empty. -/
theorem optimizeText_ne_empty (s : String)
    (h : ∃ c ∈ s.data, c.isWhitespace = false) : optimizeText s ≠ "" := by
  obtain ⟨d, ds, hd, hdw⟩ := dropWhileWs_exists s.data h
  intro hemp
  apply collapseCore_cons_ne d ds hdw
  have hdata := congrArg String.data hemp
  simpa [optimizeText, hd] using hdata

/-- The "no text" placeholder always carries the non-whitespace `[`. -/
theorem noTextPlaceholder_has_nonws (name : String) :
    ∃ c ∈ (noTextPlaceholder name).data, c.isWhitespace = false := by
  refine ⟨'[', ?_, by decide⟩
  have hmem : '[' ∈ "[No text could be extracted from ".data := by decide
  exact List.mem_append_left _ (List.mem_append_left _ hmem)

/-- The extraction-error fallback text always carries the non-whitespace
`[`. -/
theorem errorPlaceholder_has_nonws (name message : String) :
    ∃ c ∈ (errorPlaceholder name message).data, c.isWhitespace = false := by
  refine ⟨'[', ?_, by decide⟩
  have hmem : '[' ∈ "[Error extracting text from ".data := by decide
  exact List.mem_append_left _ (List.mem_append_left _
    (List.mem_append_left _ (List.mem_append_left _ hmem)))

/-- Whatever text enters the optimize step on the accepted path contains a
non-whitespace character. -/
theorem extractedTextOf_has_nonws (fname : String) (ex : Except String String) :
    ∃ c ∈ (extractedTextOf fname ex).data, c.isWhitespace = false := by
  cases ex with
  | ok t =>
      by_cases hall : t.data.all Char.isWhitespace
      · simp only [extractedTextOf, hall, if_true]
        exact noTextPlaceholder_has_nonws fname
      · have hall' : t.data.all Char.isWhitespace = false := by
          simpa using hall
        simp only [extractedTextOf, hall', Bool.false_eq_true, if_false]
        have hnot : ¬ ∀ c ∈ t.data, c.isWhitespace = true := by
          rw [← List.all_eq_true]
          simp [hall']
        push_neg at hnot
        obtain ⟨c, hc, hcw⟩ := hnot
        exact ⟨c, hc, by simpa using hcw⟩
  | error m => exact errorPlaceholder_has_nonws fname m

/-- C9 (confirmed): within the 5 MB limit and with a supported content
type, `processDocument` always succeeds; a successful result never carries
an empty text (placeholders substitute for missing extraction output); and
oversized or unsupported files are rejected with `success = false` by a
result that does not depend on any extraction outcome — no extraction is
attempted. -/
theorem processDocument_spec (size : Nat) (ftype fname : String)
    (ex : Except String String) :
    (size ≤ MAX_FILE_SIZE → ftype ∈ ALLOWED_FILE_TYPES →
      (processDocument size ftype fname ex).success = true) ∧
    ((processDocument size ftype fname ex).success = true →
      (processDocument size ftype fname ex).text ≠ "") ∧
    (MAX_FILE_SIZE < size ∨ ftype ∉ ALLOWED_FILE_TYPES →
      (processDocument size ftype fname ex).success = false ∧
      ∀ ex2, processDocument size ftype fname ex =
        processDocument size ftype fname ex2) := by
  by_cases h1 : MAX_FILE_SIZE < size
  · refine ⟨?_, ?_, ?_⟩
    · intro hle _
      exact absurd h1 (Nat.not_lt.mpr hle)
    · intro hsucc
      have : (processDocument size ftype fname ex).success = false := by
        simp [processDocument, h1]
      rw [this] at hsucc
      exact absurd hsucc (by simp)
    · intro _
      refine ⟨by simp [processDocument, h1], fun ex2 => ?_⟩
      simp [processDocument, h1]
  · by_cases h2 : ftype ∈ ALLOWED_FILE_TYPES
    · have hform : processDocument size ftype fname ex =
          { text := optimizeText (extractedTextOf fname ex)
            filename := fname
            fileType := ftype
            chunks := splitIntoChunks (optimizeText (extractedTextOf fname ex)) 1500
            wordCount := countWords (optimizeText (extractedTextOf fname ex))
            success := true
            error := none } := by
        simp [processDocument, h1, h2]
      refine ⟨fun _ _ => by rw [hform], fun _ => ?_, fun habs => ?_⟩
      · rw [hform]
        exact optimizeText_ne_empty _ (extractedTextOf_has_nonws fname ex)
      · rcases habs with habs | habs
        · exact absurd habs h1
        · exact absurd h2 habs
    · refine ⟨?_, ?_, ?_⟩
      · intro _ hmem
        exact absurd hmem h2
      · intro hsucc
        have : (processDocument size ftype fname ex).success = false := by
          simp [processDocument, h1, h2]
        rw [this] at hsucc
        exact absurd hsucc (by simp)
      · intro _
        refine ⟨by simp [processDocument, h1, h2], fun ex2 => ?_⟩
        simp [processDocument, h1, h2]

/-- C9 witness: a small PDF with extracted text succeeds with a non-empty
text, and an oversized file is rejected. -/
theorem processDocument_spec_witness :
    (processDocument 1024 "application/pdf" "thesis.pdf"
        (Except.ok "My thesis text")).success = true ∧
    (processDocument 1024 "application/pdf" "thesis.pdf"
        (Except.ok "My thesis text")).text ≠ "" ∧
    (processDocument (6 * 1024 * 1024) "application/pdf" "big.pdf"
        (Except.ok "x")).success = false := by
  have h := processDocument_spec 1024 "application/pdf" "thesis.pdf"
    (Except.ok "My thesis text")
  have hbig := processDocument_spec (6 * 1024 * 1024) "application/pdf"
    "big.pdf" (Except.ok "x")
  have hs := h.1 (by decide) (by decide)
  exact ⟨hs, h.2.1 hs, (hbig.2.2 (Or.inl (by decide))).1⟩

end DefenseCoach
